import Mathlib

/-!
Verification development for `summary.py` (ngiab-bench): a benchmark-result
aggregator plus a hardware/environment fingerprinter.

The Python source is shallowly embedded below.  Conventions of the embedding:

* Python `dict` (insertion-ordered, assignment to an existing key updates the
  value in place) is modelled by `Table`, an ordered association list with
  `dictSet` / `dictGet` / `dictContains`.
* Each external command invocation (`lscpu`, `dmidecode`, `df`, `nvme list`,
  `smartctl`, `lshw`, `lsblk`, `docker --version`, `hostname`) is modelled by
  an `Option String` field of `Env`: `none` means `subprocess.check_output`
  raised, `some out` is the decoded stdout of that one invocation.
* Python floats are modelled by `ℚ`;  `float(...)` parsing accepts the plain
  decimal grammar (optional sign, digits, optional fractional part), and
  `round(x, 3)` / `f"{x:.1f}"` use round-half-to-even, as CPython does on the
  decimal values that occur here.
* `re` usage in the source is deterministic (no effective backtracking), so
  each regex is embedded as the equivalent direct scanner over `List Char`.
  `\d` is modelled as an ASCII digit.
* Code that can raise inside a `try:` is modelled with `Except`, the error
  value carrying the table as mutated so far (CPython keeps mutations made
  before an exception).
-/

/-! ## Character and string helpers (Python semantics) -/

/-- Whitespace for Python `str.strip` / `str.split()` / `\s`. -/
def isPySpace (c : Char) : Bool :=
  c == ' ' || c == '\t' || c == '\n' || c == '\r' || c == '\x0b' || c == '\x0c'

/-- Does `p` occur at the start of `l`? -/
def listPre : List Char → List Char → Bool
  | [], _ => true
  | _ :: _, [] => false
  | p :: ps, x :: xs => p == x && listPre ps xs

/-- Does `pat` occur anywhere in the character list? (Python `in` on `str`.) -/
def hasSubL (pat : List Char) : List Char → Bool
  | [] => pat.isEmpty
  | x :: xs => listPre pat (x :: xs) || hasSubL pat xs

/-- Python `pat in s` substring test. -/
def strContains (s pat : String) : Bool := hasSubL pat.toList s.toList

/-- Python `s.split(c)` for a single-character separator. -/
def splitCh (c : Char) : List Char → List (List Char)
  | [] => [[]]
  | x :: xs =>
    match splitCh c xs with
    | [] => [[]]
    | y :: ys => if x == c then [] :: y :: ys else (x :: y) :: ys

/-- Python `s.split("\n")`. -/
def splitLines (s : String) : List String := (splitCh '\n' s.toList).map String.mk

/-- Characters after the first occurrence of `c` (empty if `c` is absent). -/
def dropPast (c : Char) : List Char → List Char
  | [] => []
  | x :: xs => if x == c then xs else dropPast c xs

/-- Python `s.split(":", 1)[1]`; callers only use it on lines that contain a colon. -/
def afterColon (s : String) : String := String.mk (dropPast ':' s.toList)

/-- Python `s.split(":")[1]`; callers only use it on lines that contain a colon. -/
def colonField1 (s : String) : String :=
  String.mk ((dropPast ':' s.toList).takeWhile (fun c => !(c == ':')))

/-- Python `str.strip()` on a character list. -/
def stripL (l : List Char) : List Char :=
  ((l.dropWhile isPySpace).reverse.dropWhile isPySpace).reverse

/-- Python `str.strip()`. -/
def pyStrip (s : String) : String := String.mk (stripL s.toList)

/-- Python `s.split()`: split on whitespace runs, no empty tokens. -/
def splitPred (p : Char → Bool) : List Char → List (List Char)
  | [] => [[]]
  | x :: xs =>
    match splitPred p xs with
    | [] => [[]]
    | y :: ys => if p x then [] :: y :: ys else (x :: y) :: ys

/-- Python `s.split()` on a character list. -/
def splitWSL (l : List Char) : List (List Char) :=
  (splitPred isPySpace l).filter (fun t => !t.isEmpty)

/-- Python `s.split()`. -/
def pySplitWS (s : String) : List String := (splitWSL s.toList).map String.mk

/-- Python `s or default` for strings (empty string is falsy). -/
def pyOr (s default : String) : String := if s = "" then default else s

/-- Numeric value of a list of ASCII digits. -/
def digitsVal (l : List Char) : Nat := l.foldl (fun n c => n * 10 + (c.toNat - 48)) 0

/-- Python `float(s)` restricted to the plain decimal grammar:
optional sign, then digits and an optional fractional part (`"12"`, `"12.5"`,
`".5"`, `"5."`), with surrounding whitespace allowed.  Anything else is a
`ValueError`, modelled as `none`. -/
def pyFloat? (s : String) : Option ℚ :=
  let l := stripL s.toList
  let sl : ℚ × List Char :=
    match l with
    | '+' :: t => (1, t)
    | '-' :: t => (-1, t)
    | _ => (1, l)
  let ip := sl.2.takeWhile Char.isDigit
  let r := sl.2.dropWhile Char.isDigit
  match r with
  | [] => if ip.isEmpty then none else some (sl.1 * digitsVal ip)
  | '.' :: fr =>
    let fp := fr.takeWhile Char.isDigit
    if (fr.dropWhile Char.isDigit).isEmpty && !(ip.isEmpty && fp.isEmpty) then
      some (sl.1 * ((digitsVal ip : ℚ) + (digitsVal fp : ℚ) / (10 : ℚ) ^ fp.length))
    else none
  | _ => none

/-- Round half to even to an integer (CPython `round` / fixed-point formatting). -/
def rhe (q : ℚ) : ℤ :=
  let f := ⌊q⌋
  let r := q - (f : ℚ)
  if r < 1/2 then f
  else if (1 : ℚ)/2 < r then f + 1
  else if f % 2 = 0 then f else f + 1

/-- Python `round(q, 3)`. -/
def round3 (q : ℚ) : ℚ := (rhe (q * 1000) : ℚ) / 1000

/-- Python `f"{q:.0f}"` (sign of a negative zero is not reproduced). -/
def formatF0 (q : ℚ) : String := toString (rhe q)

/-- Python `f"{q:.1f}"` for the nonnegative values it is applied to. -/
def formatF1 (q : ℚ) : String :=
  let n := rhe (q * 10)
  toString (n / 10) ++ "." ++ toString (n % 10)

/-- Python `str(x)` for `Optional[int]` (what `psutil.cpu_count` returns). -/
def pyOptStr : Option Nat → String
  | none => "None"
  | some n => toString n

/-! ## The fact table: an insertion-ordered string dictionary -/

/-- The Fact Table: Python's insertion-ordered `dict[str, str]`. -/
abbrev Table := List (String × String)

/-- `d[k] = v`: update in place if the key exists, else append. -/
def dictSet : Table → String → String → Table
  | [], k, v => [(k, v)]
  | (k', v') :: d, k, v =>
    if k' = k then (k', v) :: d else (k', v') :: dictSet d k v

/-- `d.get(k)`: first (only) binding of the key. -/
def dictGet : Table → String → Option String
  | [], _ => none
  | (k', v) :: d, k => if k' = k then some v else dictGet d k

/-- Python `k in d`. -/
def dictContains (d : Table) (k : String) : Bool := (dictGet d k).isSome

/-! ## `parse_result_dir` (the result-directory decoder)

Source:
```
match = re.match(r"(\d+[dmy])_(\d+)_(.+)", dirname)
if match: return match.groups()
return None, None, None
```
`re.match` anchors at the start only, and `.` does not match a newline, so the
regex is equivalent to the deterministic scanner below: a maximal nonempty
digit run, one of `d`/`m`/`y`, `_`, a maximal nonempty digit run, `_`, then a
maximal nonempty run of non-newline characters; any remaining characters
(necessarily starting with a newline) are ignored. -/
def parseRD (cs : List Char) : Option (List Char × List Char × List Char) :=
  let d1 := cs.takeWhile Char.isDigit
  let r1 := cs.dropWhile Char.isDigit
  if d1.isEmpty then none else
  match r1 with
  | u :: r2 =>
    if u = 'd' ∨ u = 'm' ∨ u = 'y' then
      match r2 with
      | '_' :: r3 =>
        let d2 := r3.takeWhile Char.isDigit
        let r4 := r3.dropWhile Char.isDigit
        if d2.isEmpty then none else
        match r4 with
        | '_' :: r5 =>
          let g := r5.takeWhile (fun c => !(c == '\n'))
          if g.isEmpty then none else some (d1 ++ [u], d2, g)
        | _ => none
      | _ => none
    else none
  | [] => none

/-- `parse_result_dir(dirname)`; the `(None, None, None)` outcome is `none`. -/
def parse_result_dir (s : String) : Option (String × String × String) :=
  (parseRD s.toList).map (fun t => (String.mk t.1, String.mk t.2.1, String.mk t.2.2))

/-- The decoder grammar as the spec words it: the *anchored* regex
`^(\d+[dmy])_(\d+)_(.+)$`, i.e. the whole name must match and the gage is the
entire (newline-free) remainder.  This definition follows the spec's words and
exists only to be compared with `parse_result_dir`, which follows the source. -/
def claimDecode (s : String) : Option (String × String × String) :=
  let cs := s.toList
  let d1 := cs.takeWhile Char.isDigit
  let r1 := cs.dropWhile Char.isDigit
  if d1.isEmpty then none else
  match r1 with
  | u :: r2 =>
    if u = 'd' ∨ u = 'm' ∨ u = 'y' then
      match r2 with
      | '_' :: r3 =>
        let d2 := r3.takeWhile Char.isDigit
        let r4 := r3.dropWhile Char.isDigit
        if d2.isEmpty then none else
        match r4 with
        | '_' :: g =>
          if !g.isEmpty && !g.contains '\n' then
            some (String.mk (d1 ++ [u]), String.mk d2, String.mk g)
          else none
        | _ => none
      | _ => none
    else none
  | [] => none

/-! ## JSON values and `load_hyperfine_results` -/

/-- A parsed JSON document (`json.load` result). -/
inductive Json where
  | null
  | bool (b : Bool)
  | num (q : ℚ)
  | str (s : String)
  | arr (l : List Json)
  | obj (kvs : List (String × Json))

/-- Last binding of a key (CPython keeps the last duplicate on `json.load`,
and lookup finds that binding). -/
def lookLast : List (String × Json) → String → Option Json
  | [], _ => none
  | (k', v) :: rest, k =>
    match lookLast rest k with
    | some r => some r
    | none => if k' = k then some v else none

/-- Python `x["results"]`-style subscription with a string key: succeeds only
on a dict that has the key; everything else raises (`none`). -/
def jLookup (j : Json) (k : String) : Option Json :=
  match j with
  | .obj kvs => lookLast kvs k
  | _ => none

/-- Python `x[0]`: first element of a list, or a one-character string of a
string; a dict raises `KeyError` (JSON keys are strings, never the int `0`),
everything else raises `TypeError`. -/
def jIndex0 : Json → Option Json
  | .arr (x :: _) => some x
  | .str s =>
    match s.toList with
    | c :: _ => some (.str (String.mk [c]))
    | [] => none
  | _ => none

/-- `load_hyperfine_results(json_file)`.  The argument is `none` when opening
or JSON-decoding the file raises (missing file, malformed JSON); otherwise it
is the parsed document.  The bare `except` turns every raised error into
`None`; note that the value found at `["results"][0]["mean"]` is returned
as-is, whatever its type. -/
def load_hyperfine_results (file : Option Json) : Option Json :=
  match file with
  | none => none
  | some data => ((jLookup data "results").bind jIndex0).bind (fun r => jLookup r "mean")

/-! ## Benchmark records and the aggregator loop of `main` -/

/-- A rendered table cell: a rounded number or the `"N/A"` marker. -/
inductive Cell where
  | num (q : ℚ)
  | na
deriving DecidableEq

/-- Python truthiness of a loaded JSON value (`None` → falsy). -/
def jsonTruthy : Json → Bool
  | .null => false
  | .bool b => b
  | .num q => !(decide (q = 0))
  | .str s => !(decide (s = ""))
  | .arr l => !l.isEmpty
  | .obj kvs => !kvs.isEmpty

/-- Truthiness of an optional loaded measurement. -/
def truthyOpt : Option Json → Bool
  | none => false
  | some j => jsonTruthy j

/-- Numeric value of a JSON value as `round`/`+` accept it
(`bool` is an `int` subclass in Python). -/
def jsonNum? : Json → Option ℚ
  | .num q => some q
  | .bool b => some (if b then 1 else 0)
  | _ => none

/-- `round(x, 3) if x else "N/A"`: `None` and `0.0` are falsy and give
`"N/A"`; a truthy non-numeric value makes `round` raise `TypeError`
(modelled as `Except.error`). -/
def mkCell (m : Option Json) : Except Unit Cell :=
  match m with
  | none => .ok .na
  | some j =>
    if jsonTruthy j then
      match jsonNum? j with
      | some q => .ok (.num (round3 q))
      | none => .error ()
    else .ok .na

/-- `round(mpirun_time + troute_time, 3) if mpirun_time and troute_time else "N/A"`. -/
def mkTotal (mp tr : Option Json) : Except Unit Cell :=
  if truthyOpt mp && truthyOpt tr then
    match mp, tr with
    | some a, some b =>
      match jsonNum? a, jsonNum? b with
      | some qa, some qb => .ok (.num (round3 (qa + qb)))
      | _, _ => .error ()
    | _, _ => .error ()
  else .ok .na

/-- One row of the benchmark table. -/
structure Record where
  duration : String
  operations : Nat
  gage : String
  mpiCell : Cell
  trouteCell : Cell
  totalCell : Cell
deriving DecidableEq

/-- The dict literal built in `main`'s loop for one qualifying directory
(`int(ops)` on the all-digits operations string, plus the three cells). -/
def mkRecord (duration ops gage : String) (mp tr : Option Json) : Except Unit Record := do
  let m ← mkCell mp
  let t ← mkCell tr
  let tot ← mkTotal mp tr
  pure ⟨duration, digitsVal ops.toList, gage, m, t, tot⟩

/-- The sort key of `df.sort_values(["Operations", "Duration"])` (the
duration as its character list, compared lexicographically on code points —
exactly Python's string comparison). -/
def keyOf (r : Record) : Nat × List Char := (r.operations, r.duration.toList)

/-- Row order: operations as an integer first, then the duration tag as a
string (lexicographic on code points, as pandas compares Python strings). -/
def keyLE (r s : Record) : Prop :=
  r.operations < s.operations ∨
    (r.operations = s.operations ∧ r.duration.toList ≤ s.duration.toList)

/-- Strict version of `keyLE`. -/
def keyLT (r s : Record) : Prop :=
  r.operations < s.operations ∨
    (r.operations = s.operations ∧ r.duration.toList < s.duration.toList)

instance : DecidableRel keyLE := fun _ _ => by unfold keyLE; infer_instance

instance : DecidableRel keyLT := fun _ _ => by unfold keyLT; infer_instance

instance : IsTotal Record keyLE where
  total r s := by
    rcases Nat.lt_trichotomy r.operations s.operations with h | h | h
    · exact Or.inl (Or.inl h)
    · rcases le_total r.duration.toList s.duration.toList with h2 | h2
      · exact Or.inl (Or.inr ⟨h, h2⟩)
      · exact Or.inr (Or.inr ⟨h.symm, h2⟩)
    · exact Or.inr (Or.inl h)

instance : IsTrans Record keyLE where
  trans a b c hab hbc := by
    rcases hab with h1 | ⟨e1, d1⟩
    · rcases hbc with h2 | ⟨e2, _⟩
      · exact Or.inl (h1.trans h2)
      · exact Or.inl (e2 ▸ h1)
    · rcases hbc with h2 | ⟨e2, d2⟩
      · exact Or.inl (e1 ▸ h2)
      · exact Or.inr ⟨e1.trans e2, d1.trans d2⟩

instance : IsAntisymm Record keyLT where
  antisymm a b hab hba := by
    rcases hab with h1 | ⟨e1, d1⟩
    · rcases hba with h2 | ⟨e2, _⟩
      · exact absurd (h1.trans h2) (lt_irrefl _)
      · exact absurd h1 (e2 ▸ lt_irrefl _)
    · rcases hba with h2 | ⟨e2, d2⟩
      · exact absurd h2 (e1 ▸ lt_irrefl _)
      · exact absurd (d1.trans d2) (lt_irrefl _)

/-- `df.sort_values(["Operations", "Duration"])`, modelled as a stable sort
on the `(Operations, Duration)` key (the row order numpy produces on the
inputs considered in the theorems below). -/
def sortRecords (l : List Record) : List Record := List.insertionSort keyLE l

/-! ## The environment of `get_system_info`

One field per external observation made during a fingerprinting run.  For the
probe commands, `none` models `subprocess.check_output` raising (tool absent,
non-zero exit, permission failure) and `some out` the decoded output of that
single invocation in this run. -/

structure Env where
  /-- `/.dockerenv` or `/run/.containerenv` exists. -/
  in_docker : Bool
  /-- `lscpu` output. -/
  lscpu : Option String
  /-- `platform.processor()`. -/
  processor : String
  /-- `psutil.cpu_count(logical=False)`. -/
  cpu_cores : Option Nat
  /-- `psutil.cpu_count(logical=True)`. -/
  cpu_threads : Option Nat
  /-- `psutil.virtual_memory().total` in bytes. -/
  mem_total : Nat
  /-- `sudo dmidecode -t memory` output. -/
  dmidecode : Option String
  /-- `platform.system()`. -/
  os_system : String
  /-- `platform.release()`. -/
  os_release : String
  /-- `df BENCHMARK_DIR` output. -/
  df_out : Option String
  /-- `df -T BENCHMARK_DIR` output. -/
  dfT_out : Option String
  /-- `nvme list` output. -/
  nvme_list : Option String
  /-- `sudo smartctl -i <base_device>` output. -/
  smartctl : Option String
  /-- `sudo lshw -class disk -class storage` output. -/
  lshw : Option String
  /-- `lsblk -o NAME,MODEL,ROTA,SIZE -n <base_device>` output. -/
  lsblk : Option String
  /-- `docker --version` output. -/
  docker_version : Option String
  /-- `hostname` output. -/
  hostname : Option String

/-! ### CPU stage (lscpu scrape with OS-API fallback) -/

/-- One iteration of the `for line in lscpu.split("\n")` loop; `Except.error`
models the `ValueError` from `float(...)` on a `CPU MHz:` line whose value
does not parse, carrying the facts set so far. -/
def lscpuStep (d : Table) (line : String) : Except Table Table :=
  if strContains line "Model name:" then
    .ok (dictSet d "CPU Model" (pyStrip (afterColon line)))
  else if strContains line "CPU MHz:" then
    match pyFloat? (pyStrip (colonField1 line)) with
    | some q => .ok (dictSet d "CPU Clock" (formatF0 q ++ " MHz"))
    | none => .error d
  else if strContains line "L1d cache:" then
    .ok (dictSet d "L1d Cache" (pyStrip (colonField1 line)))
  else if strContains line "L1i cache:" then
    .ok (dictSet d "L1i Cache" (pyStrip (colonField1 line)))
  else if strContains line "L2 cache:" then
    .ok (dictSet d "L2 Cache" (pyStrip (colonField1 line)))
  else if strContains line "L3 cache:" then
    .ok (dictSet d "L3 Cache" (pyStrip (colonField1 line)))
  else .ok d

/-- The whole lscpu parsing loop; stops at the first raising line. -/
def lscpuLines : Table → List String → Except Table Table
  | d, [] => .ok d
  | d, l :: ls =>
    match lscpuStep d l with
    | .ok d2 => lscpuLines d2 ls
    | .error d2 => .error d2

/-- The table state of an lscpu parse, whether or not it raised. -/
def extractE : Except Table Table → Table
  | .ok t => t
  | .error t => t

/-- Lines 47–64: the `try:` around the lscpu scrape; any raise (failed
invocation, or a `float` parse error part-way through the loop) runs
`info["CPU Model"] = platform.processor() or "Unknown"`, overwriting a
previously parsed model name. -/
def cpuStage (env : Env) (d : Table) : Table :=
  match env.lscpu with
  | none => dictSet d "CPU Model" (pyOr env.processor "Unknown")
  | some out =>
    match lscpuLines d (splitLines out) with
    | .ok d2 => d2
    | .error d2 => dictSet d2 "CPU Model" (pyOr env.processor "Unknown")

/-- Lines 66–67: `psutil.cpu_count` facts (values rendered as Python would
print them). -/
def cpuCountStage (env : Env) (d : Table) : Table :=
  dictSet (dictSet d "CPU Cores" (pyOptStr env.cpu_cores))
    "CPU Threads" (pyOptStr env.cpu_threads)

/-- Lines 70–71: total memory from the OS API. -/
def memTotalStage (env : Env) (d : Table) : Table :=
  dictSet d "Memory Total" (formatF1 ((env.mem_total : ℚ) / (1024 ^ 3 : ℚ)) ++ " GB")

/-! ### dmidecode stage (memory type/speed/config, host only) -/

/-- The three accumulator lists of the dmidecode loop, in order. -/
def dmiScan : List String → List String × List String × List String
  | [] => ([], [], [])
  | line :: rest =>
    let r := dmiScan rest
    if strContains line "Type:" && strContains line "DDR" then
      (pyStrip (colonField1 line) :: r.1, r.2.1, r.2.2)
    else if strContains line "Speed:" && strContains line "MT/s" then
      (r.1, pyStrip (colonField1 line) :: r.2.1, r.2.2)
    else if strContains line "Size:" && (strContains line "GB" || strContains line "MB") then
      if strContains line "Volatile" then r
      else (r.1, r.2.1, pyStrip (colonField1 line) :: r.2.2)
    else r

/-- First-occurrence deduplication, modelling iteration over a CPython `set`
of strings (whose order is unspecified; nothing below depends on it). -/
def firstDedup : List String → List String
  | [] => []
  | x :: xs => x :: (firstDedup xs).filter (fun y => !(y == x))

/-- `", ".join(set(l))` as modelled here. -/
def joinSet (l : List String) : String := String.intercalate ", " (firstDedup l)

/-- `l[0] if len(set(l)) == 1 else ", ".join(set(l))`. -/
def setOrJoin (l : List String) : String :=
  match l with
  | [] => ""
  | x :: xs => if xs.all (fun y => y == x) then x else joinSet (x :: xs)

/-- Lines 73–103: the dmidecode scrape, skipped entirely inside Docker;
a failed invocation contributes nothing. -/
def dmiStage (env : Env) (d : Table) : Table :=
  if env.in_docker then d
  else
    match env.dmidecode with
    | none => d
    | some out =>
      let r := dmiScan (splitLines out)
      if !r.1.isEmpty && !r.2.1.isEmpty then
        let d := dictSet d "Memory Type" (setOrJoin r.1)
        let d := dictSet d "Memory Speed" (setOrJoin r.2.1)
        if !r.2.2.isEmpty then
          dictSet d "Memory Config"
            (match r.2.2 with
             | [] => ""
             | s :: ss =>
               if ss.all (fun y => y == s) then
                 toString (s :: ss).length ++ "x" ++ s
               else String.intercalate ", " (s :: ss))
        else d
      else d

/-- Line 106: `info["OS"] = f"{platform.system()} {platform.release()}"`. -/
def osStage (env : Env) (d : Table) : Table :=
  dictSet d "OS" (env.os_system ++ " " ++ env.os_release)

/-! ### Drive stage -/

/-- Lines 111–116: device and filesystem type from `df` / `df -T`;  `none`
models any raise (failed invocation or too few lines/fields), which the outer
`except` turns into the `Drive: Unknown` sentinel. -/
def discoverDevice (env : Env) : Option (String × String) := do
  let dfo ← env.df_out
  let line1 ← (splitLines dfo)[1]?
  let device ← (pySplitWS line1)[0]?
  let dfto ← env.dfT_out
  let lineT ← (splitLines dfto)[1]?
  let fstype ← (pySplitWS lineT)[1]?
  pure (device, fstype)

/-- Lines 121–123: strip the partition suffix from the device path
(`re.sub(r"\d+$", ...)`, then `r"p$"`, then `r"n\d+$"`). -/
def baseDevice (device : String) : String :=
  let l1 := (device.toList.reverse.dropWhile Char.isDigit).reverse
  let l2 := match l1.reverse with
    | 'p' :: r => r.reverse
    | _ => l1
  let l3 :=
    match l2.reverse.takeWhile Char.isDigit, l2.reverse.dropWhile Char.isDigit with
    | [], _ => l2
    | _ :: _, 'n' :: r => r.reverse
    | _, _ => l2
  String.mk l3

/-- `base_device.split("/")[-1]`. -/
def lastComponent (s : String) : List Char :=
  (splitCh '/' s.toList).getLastD []

/-- `re.sub(r"^[^\s]+\s+[^\s]+\s+[^\s]+\s+", "x  x  x  ", line)`: if the line
starts with three whitespace-separated tokens followed by whitespace, replace
that prefix by `"x  x  x  "`; otherwise leave the line unchanged. -/
def nvmeSub (l : List Char) : List Char :=
  let t1 := l.takeWhile (fun c => !isPySpace c)
  let r1 := l.dropWhile (fun c => !isPySpace c)
  let w1 := r1.takeWhile isPySpace
  let r2 := r1.dropWhile isPySpace
  let t2 := r2.takeWhile (fun c => !isPySpace c)
  let r3 := r2.dropWhile (fun c => !isPySpace c)
  let w2 := r3.takeWhile isPySpace
  let r4 := r3.dropWhile isPySpace
  let t3 := r4.takeWhile (fun c => !isPySpace c)
  let r5 := r4.dropWhile (fun c => !isPySpace c)
  let w3 := r5.takeWhile isPySpace
  let r6 := r5.dropWhile isPySpace
  if !t1.isEmpty && !w1.isEmpty && !t2.isEmpty && !w2.isEmpty
      && !t3.isEmpty && !w3.isEmpty then
    "x  x  x  ".toList ++ r6
  else l

/-- `re.split(r"\s{2,}", s)`: runs of two or more whitespace characters are
separators; a single whitespace character stays inside a token.  Fuel-driven
scanner (fuel ≥ length of the input). -/
def splitWS2 (fuel : Nat) (cur : List Char) (l : List Char) : List (List Char) :=
  match fuel with
  | 0 => [cur.reverse]
  | fuel + 1 =>
    match l with
    | [] => [cur.reverse]
    | c :: cs =>
      if isPySpace c then
        match cs with
        | c2 :: _ =>
          if isPySpace c2 then
            cur.reverse :: splitWS2 fuel [] (cs.dropWhile isPySpace)
          else splitWS2 fuel (c :: cur) cs
        | [] => splitWS2 fuel (c :: cur) cs
      else splitWS2 fuel (c :: cur) cs

/-- `re.split(r"\s{2,}", s)` on a whole string. -/
def reSplitWS2 (l : List Char) : List (List Char) := splitWS2 (l.length + 1) [] l

/-- One attempted match of `\s+[0-9\.]+\s+[MTG]B` at the head of the list,
returning the match and the rest on success. -/
def capTry (l : List Char) : Option (List Char × List Char) :=
  let w1 := l.takeWhile isPySpace
  let r1 := l.dropWhile isPySpace
  let dg := r1.takeWhile (fun c => c.isDigit || c == '.')
  let r2 := r1.dropWhile (fun c => c.isDigit || c == '.')
  let w2 := r2.takeWhile isPySpace
  let r3 := r2.dropWhile isPySpace
  if w1.isEmpty || dg.isEmpty || w2.isEmpty then none
  else
    match r3 with
    | u :: 'B' :: r4 =>
      if u == 'M' || u == 'T' || u == 'G' then
        some (w1 ++ dg ++ w2 ++ [u, 'B'], r4)
      else none
    | _ => none

/-- `re.findall(r"\s+[0-9\.]+\s+[MTG]B", line)`: left-to-right non-overlapping
matches. -/
def capScan (fuel : Nat) (l : List Char) : List (List Char) :=
  match fuel with
  | 0 => []
  | fuel + 1 =>
    match l with
    | [] => []
    | c :: cs =>
      match capTry (c :: cs) with
      | some (m, rest) => m :: capScan fuel rest
      | none => capScan fuel cs

/-- All capacity-pattern matches of a line. -/
def capMatches (l : List Char) : List (List Char) := capScan (l.length + 1) l

/-- Lines 131–145: the loop over `nvme list` output.  On the matching device
line with at least four double-space-separated columns, model/type/interface
are set; an empty `findall` result then raises `IndexError` (swallowed by the
probe's `except: pass`, keeping the facts already set), otherwise the capacity
is set and the loop breaks. -/
def nvmeLoop (devName : List Char) : Table → List (List Char) → Table
  | d, [] => d
  | d, line :: rest =>
    if hasSubL devName line then
      let line2 := nvmeSub line
      let parts := reSplitWS2 (stripL line2)
      if parts.length ≥ 4 then
        let d := dictSet d "Drive Model" (String.mk (parts.getD 3 []))
        let d := dictSet d "Drive Type" "NVMe SSD"
        let d := dictSet d "Drive Interface" "NVMe"
        match capMatches line2 with
        | [] => d
        | m :: ms => dictSet d "Drive Capacity" (String.mk (stripL ((m :: ms).getLastD [])))
      else nvmeLoop devName d rest
    else nvmeLoop devName d rest

/-- Lines 126–147: the NVMe lister probe (only attempted when the base device
name contains `"nvme"`). -/
def nvmeStage (env : Env) (base : String) (d : Table) : Table :=
  match env.nvme_list with
  | none => d
  | some out => nvmeLoop (lastComponent base) d ((splitCh '\n' (stripL out.toList)))

/-- Lines 156–163: one line of `smartctl -i` output. -/
def smartStep (d : Table) (line : String) : Table :=
  if strContains line "Device Model:" || strContains line "Model Number:" then
    dictSet d "Drive Model" (pyStrip (afterColon line))
  else if strContains line "Rotation Rate:" then
    if strContains line "Solid State" then dictSet d "Drive Type" "SSD"
    else dictSet d "Drive Type" ("HDD (" ++ pyStrip (colonField1 line) ++ ")")
  else d

/-- Lines 151–165: the SMART inspector probe. -/
def smartProbe (env : Env) (d : Table) : Table :=
  match env.smartctl with
  | none => d
  | some out => (splitLines out).foldl smartStep d

/-- Lines 174–185: the `lshw` loop with its `finish_up`/`break` logic.  Note
that every `product:` line overwrites `Drive Model` unconditionally. -/
def lshwLoop (devName : List Char) : Table → Bool → List String → Table
  | d, _, [] => d
  | d, fin, line :: rest =>
    let d2 :=
      if strContains line "product:" then
        dictSet d "Drive Model" (pyStrip (afterColon line))
      else if strContains line "vendor:" && dictContains d "Drive Model" then
        dictSet d "Drive Vendor" (pyStrip (afterColon line))
      else if strContains line "size:" && dictContains d "Drive Model" then
        dictSet d "Drive Size" (pyStrip (afterColon line))
      else d
    if fin && strContains line "*-" && !strContains line "namespace" then d2
    else if strContains line "logical name:" && hasSubL devName line.toList then
      lshwLoop devName d2 true rest
    else lshwLoop devName d2 fin rest

/-- Lines 168–187: the hardware-lister probe. -/
def lshwProbe (env : Env) (base : String) (d : Table) : Table :=
  match env.lshw with
  | none => d
  | some out => lshwLoop (lastComponent base) d false (splitLines out)

/-- Lines 150–187: the smartctl → lshw fallback block, entered only when the
drive-model key is still unset and the run is outside Docker.  Inside the
block, `lshw` runs even when `smartctl` has just set the key. -/
def fallbackStage (env : Env) (base : String) (d : Table) : Table :=
  if !dictContains d "Drive Model" && !env.in_docker then
    lshwProbe env base (smartProbe env d)
  else d

/-- Lines 189–204: the `lsblk` probe, guarded by the key still being unset. -/
def lsblkStage (env : Env) (d : Table) : Table :=
  if !dictContains d "Drive Model" then
    match env.lsblk with
    | none => d
    | some out =>
      let parts := splitWSL (stripL out.toList)
      if parts.length ≥ 2 && !(parts.getD 1 []).isEmpty then
        let d := dictSet d "Drive Model"
          (if parts.length > 3 then
            String.intercalate " " (((parts.drop 1).dropLast.dropLast).map String.mk)
          else String.mk (parts.getD 1 []))
        let d := if parts.length ≥ 3 then
            dictSet d "Drive Type"
              (if (parts.dropLast).getLastD [] = ['1'] then "HDD" else "SSD")
          else d
        if parts.length ≥ 4 then
          dictSet d "Drive Capacity" (String.mk (parts.getLastD []))
        else d
      else d
  else d

/-- Lines 119–204: the probes attempted once a `/dev/...` device is known. -/
def driveProbes (env : Env) (device : String) (d : Table) : Table :=
  if strContains device "/dev/" then
    let base := baseDevice device
    let d := if strContains base "nvme" then nvmeStage env base d else d
    lsblkStage env (fallbackStage env base d)
  else d

/-- Lines 108–206: the whole drive block.  A raise during device discovery is
the only way to reach the outer `except`, which records the sentinel. -/
def driveStage (env : Env) (d : Table) : Table :=
  match discoverDevice env with
  | none => dictSet d "Drive" "Unknown"
  | some (device, fstype) => driveProbes env device (dictSet d "Filesystem" fstype)

/-- Lines 208–226: docker version, environment kind, container hostname. -/
def dockerStage (env : Env) (d : Table) : Table :=
  match env.docker_version with
  | some v =>
    let d := dictSet d "Docker" (pyStrip v)
    if env.in_docker then
      let d := dictSet d "Environment" "Inside Docker Container"
      match env.hostname with
      | some h => dictSet d "Container Hostname" (pyStrip h)
      | none => d
    else dictSet d "Environment" "Host System"
  | none =>
    dictSet (dictSet d "Docker" "Not detected")
      "Environment" (if env.in_docker then "Docker Container" else "Host System")

/-- `get_system_info()`: the ordered fact table of one fingerprinting run. -/
def get_system_info (env : Env) : Table :=
  dockerStage env (driveStage env (osStage env (dmiStage env
    (memTotalStage env (cpuCountStage env (cpuStage env []))))))

/-! ## `main`: directory walk, record building, report -/

/-- One entry of `os.listdir(BENCHMARK_DIR)` with what the loop observes about
it: whether it is a directory, and the parsed contents (or `none` for a
missing/corrupt file) of its two measurement files. -/
structure DirEntry where
  name : String
  isDir : Bool
  mpirun : Option Json
  troute : Option Json

/-- The filesystem state `main` runs against. -/
structure FS where
  root_exists : Bool
  entries : List DirEntry

/-- What a run of `main` produces. -/
inductive MainOut where
  | errRoot
  | errEmpty
  | report (sysinfo : Table) (rows : List Record)

/-- Lines 239–259: build the record list in `os.listdir` order; an uncaught
`TypeError` from `round` on a truthy non-numeric measurement aborts the run
(`Except.error`). -/
def collectResults : List DirEntry → Except Unit (List Record)
  | [] => .ok []
  | e :: es =>
    if e.isDir then
      match parse_result_dir e.name with
      | some (duration, ops, gage) =>
        if duration ≠ "" ∧ ops ≠ "" then do
          let r ← mkRecord duration ops gage (load_hyperfine_results e.mpirun)
            (load_hyperfine_results e.troute)
          let rs ← collectResults es
          pure (r :: rs)
        else collectResults es
      | none => collectResults es
    else collectResults es

/-- `main()`: early exits for a missing root or an empty record set, otherwise
the report (system info plus sorted rows, which the report sink prints and
writes to `benchmark_summary.csv`). -/
def mainRun (fs : FS) (env : Env) : Except Unit MainOut :=
  if !fs.root_exists then .ok .errRoot
  else
    match collectResults fs.entries with
    | .error e => .error e
    | .ok results =>
      if results.isEmpty then .ok .errEmpty
      else .ok (.report (get_system_info env) (sortRecords results))

/-! ## Concrete fixtures for the theorems below -/

/-- A raising `CPU MHz:` line: the structured CPU inspector's loop aborts on
it (i.e. `lscpuStep` returns `Except.error`). -/
def lineRaises (l : String) : Bool :=
  !strContains l "Model name:" && strContains l "CPU MHz:"
    && (pyFloat? (pyStrip (colonField1 l))).isNone

/-- A host-context run in which every probe invocation fails. -/
def hostEnv : Env where
  in_docker := false
  lscpu := none
  processor := "TestCPU"
  cpu_cores := some 4
  cpu_threads := some 8
  mem_total := 8589934592
  dmidecode := none
  os_system := "Linux"
  os_release := "6.1.0"
  df_out := none
  dfT_out := none
  nvme_list := none
  smartctl := none
  lshw := none
  lsblk := none
  docker_version := none
  hostname := none

/-- A run on a SATA disk where both `smartctl` and `lshw` report a model. -/
def driveEnv : Env := { hostEnv with
  df_out := some "Filesystem 1K-blocks Used Available Use% Mounted on\n/dev/sda1 100 50 50 50% /"
  dfT_out := some "Filesystem Type 1K-blocks Used Available Use% Mounted on\n/dev/sda1 ext4 100 50 50 50% /"
  smartctl := some "Device Model: AlphaDisk"
  lshw := some "  product: BetaDisk" }

/-- A run whose lscpu output has a model-name line, then a `CPU MHz:` line
with a non-numeric value, then a cache line. -/
def cpuEnv : Env := { hostEnv with
  lscpu := some "Model name: FancyCPU\nCPU MHz: abc\nL1d cache: 32 KiB"
  processor := "fallbackproc" }

/-- A run where `df` succeeds but the benchmark root is on an overlay mount,
so the device path contains no `/dev/` and no drive probe runs at all. -/
def overlayEnv : Env := { hostEnv with
  df_out := some "Filesystem 1K-blocks Used Available Use% Mounted on\noverlay 100 50 50 50% /"
  dfT_out := some "Filesystem Type 1K-blocks Used Available Use% Mounted on\noverlay overlay 100 50 50 50% /" }

/-- A run where `nvme list` reports the benchmark root's NVMe device. -/
def nvmeEnv : Env := { hostEnv with
  nvme_list := some "Node  SN  Model  Namespace\n/dev/nvme0n1  SN1  Vendor  ModelX  1  500.1  GB" }

/-- The fact table just before the drive probes run (device discovered,
filesystem type `ext4` recorded). -/
def preDriveTable (env : Env) : Table :=
  dictSet (osStage env (dmiStage env (memTotalStage env
    (cpuCountStage env (cpuStage env []))))) "Filesystem" "ext4"

/-- Records for the sorting examples. -/
def rec500x10d : Record := ⟨"10d", 500, "g1", .na, .na, .na⟩

def rec1000x5d : Record := ⟨"5d", 1000, "g2", .na, .na, .na⟩

def rec500x30d : Record := ⟨"30d", 500, "g3", .na, .na, .na⟩

def recTieA : Record := ⟨"10d", 500, "gageA", .na, .na, .na⟩

def recTieB : Record := ⟨"10d", 500, "gageB", .na, .na, .na⟩

/-- A hyperfine-shaped document `{"results": [{"mean": v}]}`. -/
def meanDoc (v : Json) : Json := .obj [("results", .arr [.obj [("mean", v)]])]

/-- The spec's example measurement file `{"results":[{"mean": 12.3456}]}`. -/
def doc12 : Json := meanDoc (.num (123456/10000))

/-- A measurement file whose `mean` field holds a boolean. -/
def docBool : Json := meanDoc (.bool true)

/-- A results root with one well-formed directory whose primary measurement
file holds a truthy non-numeric `mean`. -/
def fsCrash : FS := ⟨true, [⟨"30d_1000_gageA", true, some (meanDoc (.str "abc")), none⟩]⟩

/-- A results root with one fully well-formed benchmark directory. -/
def fsGood : FS := ⟨true, [⟨"30d_1000_gageA", true, some (meanDoc (.num 1)), some (meanDoc (.num 2))⟩]⟩

/-- The record `fsGood` produces. -/
def recGood : Record := ⟨"30d", 1000, "gageA", .num (round3 1), .num (round3 2), .num (round3 (1 + 2))⟩

/-! ## Dictionary lemmas -/

theorem dictGet_set_self (d : Table) (k v : String) :
    dictGet (dictSet d k v) k = some v := by
  induction d with
  | nil => simp [dictSet, dictGet]
  | cons p d ih =>
    obtain ⟨a, b⟩ := p
    by_cases h : a = k
    · subst h; simp [dictSet, dictGet]
    · simp [dictSet, dictGet, h, ih]

theorem dictGet_set_ne (d : Table) (k v k' : String) (h : k' ≠ k) :
    dictGet (dictSet d k v) k' = dictGet d k' := by
  induction d with
  | nil => simp [dictSet, dictGet, Ne.symm h]
  | cons p d ih =>
    obtain ⟨a, b⟩ := p
    by_cases ha : a = k
    · subst ha
      simp [dictSet, dictGet, Ne.symm h]
    · by_cases ha' : a = k'
      · subst ha'; simp [dictSet, dictGet, ha]
      · simp [dictSet, dictGet, ha, ha', ih]

/-! ## Key-preservation lemmas: each stage only writes its own keys -/

theorem lscpuStep_get_ne (d : Table) (l k : String)
    (h1 : k ≠ "CPU Model") (h2 : k ≠ "CPU Clock") (h3 : k ≠ "L1d Cache")
    (h4 : k ≠ "L1i Cache") (h5 : k ≠ "L2 Cache") (h6 : k ≠ "L3 Cache") :
    dictGet (extractE (lscpuStep d l)) k = dictGet d k := by
  unfold lscpuStep
  repeat' split
  all_goals simp [extractE, dictGet_set_ne, h1, h2, h3, h4, h5, h6]

theorem lscpuLines_get_ne (ls : List String) (d : Table) (k : String)
    (h1 : k ≠ "CPU Model") (h2 : k ≠ "CPU Clock") (h3 : k ≠ "L1d Cache")
    (h4 : k ≠ "L1i Cache") (h5 : k ≠ "L2 Cache") (h6 : k ≠ "L3 Cache") :
    dictGet (extractE (lscpuLines d ls)) k = dictGet d k := by
  induction ls generalizing d with
  | nil => simp [lscpuLines, extractE]
  | cons l ls ih =>
    have hstep := lscpuStep_get_ne d l k h1 h2 h3 h4 h5 h6
    unfold lscpuLines
    cases he : lscpuStep d l with
    | ok d2 =>
      rw [he] at hstep
      simp only [extractE] at hstep
      rw [ih d2]
      exact hstep
    | error d2 =>
      rw [he] at hstep
      simpa [extractE] using hstep

theorem cpuStage_get_ne (env : Env) (d : Table) (k : String)
    (h1 : k ≠ "CPU Model") (h2 : k ≠ "CPU Clock") (h3 : k ≠ "L1d Cache")
    (h4 : k ≠ "L1i Cache") (h5 : k ≠ "L2 Cache") (h6 : k ≠ "L3 Cache") :
    dictGet (cpuStage env d) k = dictGet d k := by
  unfold cpuStage
  cases env.lscpu with
  | none => simp [dictGet_set_ne, h1]
  | some out =>
    dsimp only
    have hl := lscpuLines_get_ne (splitLines out) d k h1 h2 h3 h4 h5 h6
    cases he : lscpuLines d (splitLines out) with
    | ok d2 =>
      rw [he] at hl
      simpa [extractE] using hl
    | error d2 =>
      rw [he] at hl
      simp only [extractE] at hl
      rw [dictGet_set_ne _ _ _ _ h1]
      exact hl

theorem cpuCountStage_get_ne (env : Env) (d : Table) (k : String)
    (h1 : k ≠ "CPU Cores") (h2 : k ≠ "CPU Threads") :
    dictGet (cpuCountStage env d) k = dictGet d k := by
  simp [cpuCountStage, dictGet_set_ne, h1, h2]

theorem memTotalStage_get_ne (env : Env) (d : Table) (k : String)
    (h1 : k ≠ "Memory Total") :
    dictGet (memTotalStage env d) k = dictGet d k := by
  simp [memTotalStage, dictGet_set_ne, h1]

theorem dmiStage_get_ne (env : Env) (d : Table) (k : String)
    (h1 : k ≠ "Memory Type") (h2 : k ≠ "Memory Speed") (h3 : k ≠ "Memory Config") :
    dictGet (dmiStage env d) k = dictGet d k := by
  unfold dmiStage
  dsimp only
  repeat' split
  all_goals simp [dictGet_set_ne, h1, h2, h3]

theorem osStage_get_ne (env : Env) (d : Table) (k : String) (h1 : k ≠ "OS") :
    dictGet (osStage env d) k = dictGet d k := by
  simp [osStage, dictGet_set_ne, h1]

theorem smartStep_get_ne (d : Table) (l k : String)
    (h1 : k ≠ "Drive Model") (h2 : k ≠ "Drive Type") :
    dictGet (smartStep d l) k = dictGet d k := by
  unfold smartStep
  repeat' split
  all_goals simp [dictGet_set_ne, h1, h2]

theorem foldl_smartStep_get_ne (ls : List String) (d : Table) (k : String)
    (h1 : k ≠ "Drive Model") (h2 : k ≠ "Drive Type") :
    dictGet (ls.foldl smartStep d) k = dictGet d k := by
  induction ls generalizing d with
  | nil => rfl
  | cons l ls ih =>
    simp only [List.foldl_cons]
    rw [ih (smartStep d l), smartStep_get_ne d l k h1 h2]

theorem smartProbe_get_ne (env : Env) (d : Table) (k : String)
    (h1 : k ≠ "Drive Model") (h2 : k ≠ "Drive Type") :
    dictGet (smartProbe env d) k = dictGet d k := by
  unfold smartProbe
  cases env.smartctl with
  | none => rfl
  | some out => exact foldl_smartStep_get_ne (splitLines out) d k h1 h2

theorem lshwLoop_get_ne (devName : List Char) (ls : List String) (d : Table)
    (fin : Bool) (k : String) (h1 : k ≠ "Drive Model") (h2 : k ≠ "Drive Vendor")
    (h3 : k ≠ "Drive Size") :
    dictGet (lshwLoop devName d fin ls) k = dictGet d k := by
  induction ls generalizing d fin with
  | nil => rfl
  | cons l ls ih =>
    unfold lshwLoop
    dsimp only
    repeat' split
    all_goals simp [ih, dictGet_set_ne, h1, h2, h3]

theorem lshwProbe_get_ne (env : Env) (base : String) (d : Table) (k : String)
    (h1 : k ≠ "Drive Model") (h2 : k ≠ "Drive Vendor") (h3 : k ≠ "Drive Size") :
    dictGet (lshwProbe env base d) k = dictGet d k := by
  unfold lshwProbe
  cases env.lshw with
  | none => rfl
  | some out => exact lshwLoop_get_ne _ _ d false k h1 h2 h3

theorem nvmeLoop_get_ne (devName : List Char) (ls : List (List Char)) (d : Table)
    (k : String) (h1 : k ≠ "Drive Model") (h2 : k ≠ "Drive Type")
    (h3 : k ≠ "Drive Interface") (h4 : k ≠ "Drive Capacity") :
    dictGet (nvmeLoop devName d ls) k = dictGet d k := by
  induction ls generalizing d with
  | nil => rfl
  | cons l ls ih =>
    unfold nvmeLoop
    dsimp only
    repeat' split
    all_goals simp [ih, dictGet_set_ne, h1, h2, h3, h4]

theorem nvmeStage_get_ne (env : Env) (base : String) (d : Table) (k : String)
    (h1 : k ≠ "Drive Model") (h2 : k ≠ "Drive Type")
    (h3 : k ≠ "Drive Interface") (h4 : k ≠ "Drive Capacity") :
    dictGet (nvmeStage env base d) k = dictGet d k := by
  unfold nvmeStage
  cases env.nvme_list with
  | none => rfl
  | some out => exact nvmeLoop_get_ne _ _ d k h1 h2 h3 h4

theorem fallbackStage_get_ne (env : Env) (base : String) (d : Table) (k : String)
    (h1 : k ≠ "Drive Model") (h2 : k ≠ "Drive Type") (h3 : k ≠ "Drive Vendor")
    (h4 : k ≠ "Drive Size") :
    dictGet (fallbackStage env base d) k = dictGet d k := by
  unfold fallbackStage
  split
  · rw [lshwProbe_get_ne env base _ k h1 h3 h4, smartProbe_get_ne env d k h1 h2]
  · rfl

theorem lsblkStage_get_ne (env : Env) (d : Table) (k : String)
    (h1 : k ≠ "Drive Model") (h2 : k ≠ "Drive Type") (h3 : k ≠ "Drive Capacity") :
    dictGet (lsblkStage env d) k = dictGet d k := by
  unfold lsblkStage
  dsimp only
  repeat' split
  all_goals simp [dictGet_set_ne, h1, h2, h3]

theorem driveProbes_get_ne (env : Env) (device : String) (d : Table) (k : String)
    (h1 : k ≠ "Drive Model") (h2 : k ≠ "Drive Type") (h3 : k ≠ "Drive Interface")
    (h4 : k ≠ "Drive Capacity") (h5 : k ≠ "Drive Vendor") (h6 : k ≠ "Drive Size") :
    dictGet (driveProbes env device d) k = dictGet d k := by
  unfold driveProbes
  split
  · rw [lsblkStage_get_ne env _ k h1 h2 h4,
      fallbackStage_get_ne env _ _ k h1 h2 h5 h6]
    split
    · rw [nvmeStage_get_ne env _ d k h1 h2 h3 h4]
    · rfl
  · rfl

theorem driveStage_get_ne (env : Env) (d : Table) (k : String)
    (h0 : k ≠ "Filesystem") (hs : k ≠ "Drive") (h1 : k ≠ "Drive Model")
    (h2 : k ≠ "Drive Type") (h3 : k ≠ "Drive Interface") (h4 : k ≠ "Drive Capacity")
    (h5 : k ≠ "Drive Vendor") (h6 : k ≠ "Drive Size") :
    dictGet (driveStage env d) k = dictGet d k := by
  unfold driveStage
  cases discoverDevice env with
  | none => simp [dictGet_set_ne, hs]
  | some p =>
    obtain ⟨device, fstype⟩ := p
    rw [driveProbes_get_ne env device _ k h1 h2 h3 h4 h5 h6,
      dictGet_set_ne _ _ _ _ h0]

theorem dockerStage_get_ne (env : Env) (d : Table) (k : String)
    (h1 : k ≠ "Docker") (h2 : k ≠ "Environment") (h3 : k ≠ "Container Hostname") :
    dictGet (dockerStage env d) k = dictGet d k := by
  unfold dockerStage
  repeat' split
  all_goals simp [dictGet_set_ne, h1, h2, h3]

/-! ## Characterization of `parse_result_dir` -/

theorem takeWhile_app_eq (p : Char → Bool) (l r : List Char)
    (hl : ∀ c ∈ l, p c = true) (hr : ∀ x t, r = x :: t → p x = false) :
    (l ++ r).takeWhile p = l := by
  induction l with
  | nil =>
    cases r with
    | nil => rfl
    | cons x t => simp [List.takeWhile_cons, hr x t rfl]
  | cons c l ih =>
    have hc : p c = true := hl c (by simp)
    simp only [List.cons_append, List.takeWhile_cons, hc, if_true]
    rw [ih (fun c hc => hl c (by simp [hc]))]

theorem dropWhile_app_eq (p : Char → Bool) (l r : List Char)
    (hl : ∀ c ∈ l, p c = true) (hr : ∀ x t, r = x :: t → p x = false) :
    (l ++ r).dropWhile p = r := by
  induction l with
  | nil =>
    cases r with
    | nil => rfl
    | cons x t => simp [List.dropWhile_cons, hr x t rfl]
  | cons c l ih =>
    have hc : p c = true := hl c (by simp)
    simp only [List.cons_append, List.dropWhile_cons, hc, if_true]
    exact ih (fun c hc => hl c (by simp [hc]))

theorem dropWhile_head_not (p : Char → Bool) (l : List Char) :
    l.dropWhile p = [] ∨ ∃ x t, l.dropWhile p = x :: t ∧ p x = false := by
  induction l with
  | nil => exact Or.inl rfl
  | cons c l ih =>
    by_cases hc : p c = true
    · simpa [List.dropWhile_cons, hc] using ih
    · refine Or.inr ⟨c, l, ?_, by simpa using hc⟩
      simp [List.dropWhile_cons, hc]

/-- What `parse_result_dir` accepts, at the character-list level: exactly the
names of shape `digits ++ [unit] ++ "_" ++ digits ++ "_" ++ gage ++ rest`
where the gage is nonempty and newline-free and `rest` is empty or starts with
a newline (everything from the first newline after the second underscore is
ignored, because `re.match` does not anchor at the end and `.` does not match
a newline). -/
theorem parseRD_eq_some_iff (cs dur o g : List Char) :
    parseRD cs = some (dur, o, g) ↔
      ∃ d1 u rest,
        d1 ≠ [] ∧ (∀ c ∈ d1, c.isDigit = true) ∧
        (u = 'd' ∨ u = 'm' ∨ u = 'y') ∧ dur = d1 ++ [u] ∧
        o ≠ [] ∧ (∀ c ∈ o, c.isDigit = true) ∧
        g ≠ [] ∧ (∀ c ∈ g, c ≠ '\n') ∧
        (rest = [] ∨ ∃ t, rest = '\n' :: t) ∧
        cs = d1 ++ u :: '_' :: (o ++ '_' :: (g ++ rest)) := by
  constructor
  · intro h
    unfold parseRD at h
    dsimp only at h
    split at h
    next => exact Option.noConfusion h
    next hne =>
    split at h
    next u r2 hr1 =>
      split at h
      next hu =>
        split at h
        next r3 =>
          split at h
          next => exact Option.noConfusion h
          next hne2 =>
          split at h
          next r5 hr4 =>
            split at h
            next => exact Option.noConfusion h
            next hne3 =>
            injection h with h2
            simp only [Prod.mk.injEq] at h2
            obtain ⟨e1, e2, e3⟩ := h2
            subst e1
            subst e2
            subst e3
            refine ⟨cs.takeWhile Char.isDigit, u, r5.dropWhile (fun c => !(c == '\n')),
              by simpa using hne, (fun c hc => List.mem_takeWhile_imp hc), hu, rfl,
              by simpa using hne2, (fun c hc => List.mem_takeWhile_imp hc),
              by simpa using hne3, ?_, ?_, ?_⟩
            · intro c hc
              have := List.mem_takeWhile_imp hc
              simpa using this
            · rcases dropWhile_head_not (fun c => !(c == '\n')) r5 with hnil | ⟨x, t, hxt, hx⟩
              · exact Or.inl hnil
              · have hx2 : x = '\n' := by simpa using hx
                subst hx2
                exact Or.inr ⟨t, hxt⟩
            · rw [List.takeWhile_append_dropWhile, ← hr4, List.takeWhile_append_dropWhile,
                ← hr1, List.takeWhile_append_dropWhile]
          next x hx => exact Option.noConfusion h
        next x hx => exact Option.noConfusion h
      next => exact Option.noConfusion h
    next hr1 => exact Option.noConfusion h
  · rintro ⟨d1, u, rest, hd1, hd1d, hu, hdur, ho, hod, hg, hgd, hrest, hcs⟩
    have hud : Char.isDigit u = false := by
      rcases hu with h | h | h <;> subst h <;> decide
    have h1 : cs.takeWhile Char.isDigit = d1 := by
      rw [hcs]
      exact takeWhile_app_eq _ _ _ hd1d
        (by rintro x t ht; injection ht with e _; rw [← e]; exact hud)
    have h2 : cs.dropWhile Char.isDigit = u :: '_' :: (o ++ '_' :: (g ++ rest)) := by
      rw [hcs]
      exact dropWhile_app_eq _ _ _ hd1d
        (by rintro x t ht; injection ht with e _; rw [← e]; exact hud)
    have h3 : (o ++ '_' :: (g ++ rest)).takeWhile Char.isDigit = o :=
      takeWhile_app_eq _ _ _ hod
        (by rintro x t ht; injection ht with e _; rw [← e]; decide)
    have h4 : (o ++ '_' :: (g ++ rest)).dropWhile Char.isDigit = '_' :: (g ++ rest) :=
      dropWhile_app_eq _ _ _ hod
        (by rintro x t ht; injection ht with e _; rw [← e]; decide)
    have h5 : (g ++ rest).takeWhile (fun c => !(c == '\n')) = g := by
      refine takeWhile_app_eq _ _ _ (fun c hc => by simpa using hgd c hc) ?_
      rintro x t ht
      rcases hrest with hnil | ⟨t2, ht2⟩
      · rw [hnil] at ht; exact absurd ht (by simp)
      · rw [ht2] at ht; injection ht with e _; rw [← e]; decide
    unfold parseRD
    dsimp only
    rw [h1, h2]
    simp only [if_pos hu]
    rw [h3, h4]
    simp [h5, List.isEmpty_eq_true, hd1, ho, hg, hdur]

theorem parse_result_dir_eq_some_iff (s a b c : String) :
    parse_result_dir s = some (a, b, c) ↔
      parseRD s.toList = some (a.toList, b.toList, c.toList) := by
  unfold parse_result_dir
  cases h : parseRD s.toList with
  | none => simp
  | some t =>
    obtain ⟨x, y, z⟩ := t
    simp only [Option.map_some', Option.some.injEq, Prod.mk.injEq]
    constructor
    · rintro ⟨e1, e2, e3⟩
      subst e1; subst e2; subst e3
      exact ⟨rfl, rfl, rfl⟩
    · rintro ⟨e1, e2, e3⟩
      refine ⟨?_, ?_, ?_⟩
      · rw [e1]; cases a; rfl
      · rw [e2]; cases b; rfl
      · rw [e3]; cases c; rfl

/-! ## Evaluating the rounding function on concrete values -/

theorem rhe_eq_down (q : ℚ) (f : ℤ) (h1 : (f : ℚ) ≤ q) (h2 : q - f < 1/2) :
    rhe q = f := by
  have hf : ⌊q⌋ = f := by
    rw [Int.floor_eq_iff]
    refine ⟨h1, by linarith⟩
  simp only [rhe, hf]
  rw [if_pos h2]

theorem rhe_eq_up (q : ℚ) (f : ℤ) (h1 : (f : ℚ) ≤ q) (h2 : 1/2 < q - f)
    (h3 : q < (f : ℚ) + 1) : rhe q = f + 1 := by
  have hf : ⌊q⌋ = f := by
    rw [Int.floor_eq_iff]
    refine ⟨h1, by linarith⟩
  simp only [rhe, hf]
  rw [if_neg (by linarith), if_pos h2]

/-! ## Key facts for the sort -/

theorem keyLT_of_keyLE_ne (r s : Record) (h1 : keyLE r s) (h2 : keyOf r ≠ keyOf s) :
    keyLT r s := by
  rcases h1 with h | ⟨e, hle⟩
  · exact Or.inl h
  · refine Or.inr ⟨e, lt_of_le_of_ne hle ?_⟩
    intro he
    exact h2 (by rw [keyOf, keyOf, e, he])

/-! ## Claim C6 -/

/-- C6 counterexample: `re.match` is not end-anchored and `.` does not match
a newline, so `"30d_1000_a\nb"` — which the claim's anchored grammar
`^(\d+[dmy])_(\d+)_(.+)$` rejects — is decoded by the source to
`("30d", "1000", "a")`, the text after the newline being silently dropped. -/
theorem c6_counterexample :
    parse_result_dir "30d_1000_a\nb" = some ("30d", "1000", "a")
    ∧ claimDecode "30d_1000_a\nb" = none := ⟨rfl, rfl⟩

/-- C6 (amended): `decode(name)` returns the triple exactly when the name
matches `(\d+[dmy])_(\d+)_(.+)` as a *prefix*: digits, one of d/m/y, `_`,
digits, `_`, then at least one non-newline character; the gage is the maximal
newline-free run after the second underscore, and anything from the first
newline onward is ignored.  In particular `"30d_1000_gageA"` decodes to
`("30d", "1000", "gageA")`. -/
theorem c6_amended :
    (∀ s dur o g : String,
      parse_result_dir s = some (dur, o, g) ↔
        ∃ d1 u rest,
          d1 ≠ [] ∧ (∀ c ∈ d1, c.isDigit = true) ∧
          (u = 'd' ∨ u = 'm' ∨ u = 'y') ∧ dur.toList = d1 ++ [u] ∧
          o.toList ≠ [] ∧ (∀ c ∈ o.toList, c.isDigit = true) ∧
          g.toList ≠ [] ∧ (∀ c ∈ g.toList, c ≠ '\n') ∧
          (rest = [] ∨ ∃ t, rest = '\n' :: t) ∧
          s.toList = d1 ++ u :: '_' :: (o.toList ++ '_' :: (g.toList ++ rest)))
    ∧ parse_result_dir "30d_1000_gageA" = some ("30d", "1000", "gageA") := by
  refine ⟨?_, rfl⟩
  intro s dur o g
  rw [parse_result_dir_eq_some_iff, parseRD_eq_some_iff]

/-! ## Claim C7 -/

/-- C7: `decode` is total: for every input string — including the empty
string and strings with embedded whitespace or newlines — it returns either a
well-formed triple (nonempty duration, operations and gage) or the `none`
outcome; the embedding is a total function, so no run can raise. -/
theorem c7_total :
    (∀ s : String, parse_result_dir s = none
      ∨ ∃ dur o g, parse_result_dir s = some (dur, o, g)
          ∧ dur ≠ "" ∧ o ≠ "" ∧ g ≠ "")
    ∧ parse_result_dir "" = none
    ∧ parse_result_dir " 30d_1000_g" = none
    ∧ parse_result_dir "30d 1000 g" = none := by
  refine ⟨?_, rfl, rfl, rfl⟩
  intro s
  cases h : parse_result_dir s with
  | none => exact Or.inl rfl
  | some t =>
    obtain ⟨dur, o, g⟩ := t
    have hc := (parse_result_dir_eq_some_iff s dur o g).mp h
    rw [parseRD_eq_some_iff] at hc
    obtain ⟨d1, u, rest, hd1, _, _, hdur, ho, _, hg, _, _, _⟩ := hc
    refine Or.inr ⟨dur, o, g, rfl, ?_, ?_, ?_⟩
    · intro he
      rw [he] at hdur
      exact absurd hdur.symm (by simp)
    · intro he
      rw [he] at ho
      exact ho rfl
    · intro he
      rw [he] at hg
      exact hg rfl

/-! ## Claim C8 -/

/-- C8 counterexample: for `{"results":[{"mean": true}]}` the loader does not
degrade to no-data on the wrongly-typed `mean`: `data["results"][0]["mean"]`
raises nothing, so the boolean is returned as-is past the loader's boundary
(the claim says every wrong-type failure returns the no-data outcome). -/
theorem c8_counterexample :
    load_hyperfine_results (some docBool) = some (.bool true) := rfl

/-- C8 (amended): the loader never raises and degrades to no-data on a
missing/unreadable file, a top-level value without a `"results"` entry, a
`"results"` value with no first element, or a first element without a
`"mean"` entry; when the `mean` entry exists its value is returned as-is, at
full precision and whatever its type.  For the spec's example file
`{"results":[{"mean": 12.3456}]}` the loader returns `12.3456`, which rounds
to `12.346` only at aggregation. -/
theorem c8_amended :
    load_hyperfine_results none = none
    ∧ (∀ j, jLookup j "results" = none → load_hyperfine_results (some j) = none)
    ∧ (∀ j r, jLookup j "results" = some r → jIndex0 r = none →
        load_hyperfine_results (some j) = none)
    ∧ (∀ j r x, jLookup j "results" = some r → jIndex0 r = some x →
        jLookup x "mean" = none → load_hyperfine_results (some j) = none)
    ∧ (∀ j r x v, jLookup j "results" = some r → jIndex0 r = some x →
        jLookup x "mean" = some v → load_hyperfine_results (some j) = some v)
    ∧ load_hyperfine_results (some doc12) = some (.num (123456/10000))
    ∧ round3 (123456/10000) = 12346/1000 := by
  refine ⟨rfl, ?_, ?_, ?_, ?_, rfl, ?_⟩
  · intro j h
    simp [load_hyperfine_results, h]
  · intro j r h1 h2
    simp [load_hyperfine_results, h1, h2]
  · intro j r x h1 h2 h3
    simp [load_hyperfine_results, h1, h2, h3]
  · intro j r x v h1 h2 h3
    simp [load_hyperfine_results, h1, h2, h3]
  · have h : rhe ((123456/10000 : ℚ) * 1000) = 12346 :=
      rhe_eq_up _ 12345 (by norm_num) (by norm_num) (by norm_num)
    rw [round3, h]
    norm_num

/-- C8 witness: the success case applied to the spec's example file. -/
theorem c8_amended_witness :
    load_hyperfine_results (some doc12) = some (.num (123456/10000)) :=
  c8_amended.2.2.2.2.1 doc12 (.arr [.obj [("mean", .num (123456/10000))]])
    (.obj [("mean", .num (123456/10000))]) (.num (123456/10000)) rfl rfl rfl

/-! ## Claim C3 -/

/-- C3 counterexample: with primary = `0.0` and secondary = `1.0` both
measurements loaded successfully, yet the record's total (and primary cell)
are `"N/A"`, because the source tests Python truthiness (`if mpirun_time and
troute_time`) and `0.0` is falsy — contradicting "any loaded value counts as
present, including 0.0". -/
theorem c3_counterexample :
    mkRecord "10d" "500" "g" (some (.num 0)) (some (.num 1))
      = .ok ⟨"10d", 500, "g", Cell.na, Cell.num (round3 1), Cell.na⟩ := rfl

/-- C3 (amended): the derived total is present exactly when both measurements
loaded successfully *with nonzero (truthy) values*; when present it equals
the sum of the two unrounded measurements rounded once to 3 decimals (not a
sum of rounded values); whenever either measurement is missing or zero the
total is the `"N/A"` marker. -/
theorem c3_amended (d o g : String) (mp tr : Option Json) :
    (∀ a b : ℚ, mp = some (.num a) → tr = some (.num b) → a ≠ 0 → b ≠ 0 →
      mkRecord d o g mp tr = .ok ⟨d, digitsVal o.toList, g,
        Cell.num (round3 a), Cell.num (round3 b), Cell.num (round3 (a + b))⟩)
    ∧ (∀ r, mkRecord d o g mp tr = .ok r →
        truthyOpt mp = false ∨ truthyOpt tr = false → r.totalCell = Cell.na) := by
  constructor
  · intro a b h1 h2 h3 h4
    subst h1
    subst h2
    simp [mkRecord, mkCell, mkTotal, jsonTruthy, jsonNum?, truthyOpt, h3, h4,
      Bind.bind, Except.bind, pure, Except.pure]
  · intro r hr hfalse
    have htot : mkTotal mp tr = .ok Cell.na := by
      unfold mkTotal
      rcases hfalse with hf | hf <;> rw [hf] <;> simp
    unfold mkRecord at hr
    cases hm : mkCell mp with
    | error e =>
      rw [hm] at hr
      simp [Bind.bind, Except.bind] at hr
    | ok m =>
      cases hn : mkCell tr with
      | error e =>
        rw [hm, hn] at hr
        simp [Bind.bind, Except.bind] at hr
      | ok tcell =>
        rw [hm, hn, htot] at hr
        simp only [Bind.bind, Except.bind, pure, Except.pure, Except.ok.injEq] at hr
        rw [← hr]

/-- C3 witness: at `0.0004` and `0.0004` the total is `round(sum, 3) = 0.001`
even though the individually rounded values are both `0.0` — rounding happens
once, on the unrounded sum. -/
theorem c3_amended_witness :
    mkRecord "10d" "500" "g" (some (.num (4/10000))) (some (.num (4/10000)))
      = .ok ⟨"10d", digitsVal "500".toList, "g", Cell.num (round3 (4/10000)),
          Cell.num (round3 (4/10000)), Cell.num (round3 (4/10000 + 4/10000))⟩
    ∧ round3 (4/10000 + 4/10000) = 1/1000
    ∧ round3 (4/10000) + round3 (4/10000) = 0 := by
  refine ⟨(c3_amended "10d" "500" "g" _ _).1 (4/10000) (4/10000) rfl rfl
    (by norm_num) (by norm_num), ?_, ?_⟩
  · have h : rhe ((4/10000 + 4/10000 : ℚ) * 1000) = 0 + 1 :=
      rhe_eq_up _ 0 (by norm_num) (by norm_num) (by norm_num)
    rw [round3, h]
    norm_num
  · have h : rhe ((4/10000 : ℚ) * 1000) = 0 :=
      rhe_eq_down _ 0 (by norm_num) (by norm_num)
    simp only [round3]
    rw [h]
    norm_num

/-! ## Claim C4 -/

/-- C4: the aggregator's sort is ascending on the pair (operation count as an
integer, duration tag as a string, lexicographically): every output is a
permutation of the input that is sorted by `keyLE`; and the claim's example —
operations `[500, 1000, 500]` with durations `["10d", "5d", "30d"]` — sorts
to `[(500,"10d"), (500,"30d"), (1000,"5d")]`, demonstrating the
lexical-not-temporal duration order. -/
theorem c4_sort_order :
    (∀ l : List Record, (sortRecords l).Perm l ∧ (sortRecords l).Pairwise keyLE)
    ∧ sortRecords [rec500x10d, rec1000x5d, rec500x30d]
        = [rec500x10d, rec500x30d, rec1000x5d] := by
  constructor
  · intro l
    exact ⟨List.perm_insertionSort keyLE l, List.sorted_insertionSort keyLE l⟩
  · decide

/-! ## Claim C5 -/

/-- C5 counterexample: two records sharing the sort key `(500, "10d")` and
differing only in gage keep their enumeration order (the sort key does not
include the gage), so two runs that enumerate the same directories in
different orders produce different row orders. -/
theorem c5_counterexample :
    sortRecords [recTieA, recTieB] = [recTieA, recTieB]
    ∧ sortRecords [recTieB, recTieA] = [recTieB, recTieA]
    ∧ recTieA ≠ recTieB
    ∧ List.Perm [recTieA, recTieB] [recTieB, recTieA] :=
  ⟨by decide, by decide, by decide, List.Perm.swap recTieB recTieA []⟩

/-- C5 (amended): the sorted row sequence is independent of the enumeration
order provided all records have pairwise distinct (operation count, duration)
sort keys; with tied keys the relative order of the tied records follows the
(arbitrary) enumeration order. -/
theorem c5_amended (l₁ l₂ : List Record) (hp : l₁.Perm l₂)
    (hd : l₁.Pairwise (fun r s => keyOf r ≠ keyOf s)) :
    sortRecords l₁ = sortRecords l₂ := by
  have hs1 : List.Sorted keyLE (sortRecords l₁) := List.sorted_insertionSort keyLE l₁
  have hs2 : List.Sorted keyLE (sortRecords l₂) := List.sorted_insertionSort keyLE l₂
  have hp1 : (sortRecords l₁).Perm l₁ := List.perm_insertionSort keyLE l₁
  have hp2 : (sortRecords l₂).Perm l₂ := List.perm_insertionSort keyLE l₂
  have hperm : (sortRecords l₁).Perm (sortRecords l₂) := (hp1.trans hp).trans hp2.symm
  have hd1 : (sortRecords l₁).Pairwise (fun r s => keyOf r ≠ keyOf s) :=
    (hp1.pairwise_iff (fun h => Ne.symm h)).mpr hd
  have hd2 : (sortRecords l₂).Pairwise (fun r s => keyOf r ≠ keyOf s) :=
    (hperm.pairwise_iff (fun h => Ne.symm h)).mp hd1
  have hlt1 : List.Pairwise keyLT (sortRecords l₁) :=
    (hs1.and hd1).imp (fun h => keyLT_of_keyLE_ne _ _ h.1 h.2)
  have hlt2 : List.Pairwise keyLT (sortRecords l₂) :=
    (hs2.and hd2).imp (fun h => keyLT_of_keyLE_ne _ _ h.1 h.2)
  exact List.eq_of_perm_of_sorted hperm hlt1 hlt2

/-- C5 witness: two enumeration orders of the same two distinct-key records
sort identically. -/
theorem c5_amended_witness :
    sortRecords [rec1000x5d, rec500x10d] = sortRecords [rec500x10d, rec1000x5d] :=
  c5_amended [rec1000x5d, rec500x10d] [rec500x10d, rec1000x5d]
    (List.Perm.swap rec500x10d rec1000x5d []) (by decide)

/-! ## Claim C1 -/

/-- C1 counterexample: in a run where the SMART inspector successfully sets
the drive-model key (to `"AlphaDisk"`), the hardware lister (`lshw`) still
runs — the guard `"Drive Model" not in info` is only checked once, before the
smartctl/lshw pair — and overwrites the key, so the final fact table holds
the lower-priority probe's value `"BetaDisk"`. -/
theorem c1_counterexample :
    dictGet (smartProbe driveEnv (preDriveTable driveEnv)) "Drive Model" = some "AlphaDisk"
    ∧ dictGet (fallbackStage driveEnv "/dev/sda" (preDriveTable driveEnv)) "Drive Model"
        = some "BetaDisk"
    ∧ dictGet (get_system_info driveEnv) "Drive Model" = some "BetaDisk" :=
  ⟨rfl, rfl, rfl⟩

/-- C1 (amended): in the drive fallback chain, a drive-model value already
present when the fallback block is reached (e.g. set by the NVMe probe) is
never overwritten — the smartctl/lshw block and the lsblk probe each run only
if the key is unset; but *within* the fallback block the hardware lister runs
whenever the SMART inspector ran, regardless of whether the SMART inspector
just set the key, and may overwrite its value. -/
theorem c1_amended (env : Env) (base : String) (d : Table) :
    (dictContains d "Drive Model" = true → fallbackStage env base d = d)
    ∧ (dictContains d "Drive Model" = true → lsblkStage env d = d)
    ∧ (dictContains (nvmeStage env base d) "Drive Model" = true →
        dictGet (lsblkStage env (fallbackStage env base (nvmeStage env base d)))
            "Drive Model"
          = dictGet (nvmeStage env base d) "Drive Model") := by
  refine ⟨?_, ?_, ?_⟩
  · intro h
    unfold fallbackStage
    rw [h]
    simp
  · intro h
    unfold lsblkStage
    rw [h]
    simp
  · intro h
    have h2 : fallbackStage env base (nvmeStage env base d) = nvmeStage env base d := by
      unfold fallbackStage
      rw [h]
      simp
    rw [h2]
    unfold lsblkStage
    rw [h]
    simp

/-- C1 witness: the guards applied at a table that already has a drive model,
and at the table the NVMe probe produces for an `nvme list` run. -/
theorem c1_amended_witness :
    fallbackStage hostEnv "/dev/sda" [("Drive Model", "X")] = [("Drive Model", "X")]
    ∧ lsblkStage hostEnv [("Drive Model", "X")] = [("Drive Model", "X")]
    ∧ dictGet (lsblkStage nvmeEnv (fallbackStage nvmeEnv "/dev/nvme0"
        (nvmeStage nvmeEnv "/dev/nvme0" []))) "Drive Model"
      = dictGet (nvmeStage nvmeEnv "/dev/nvme0" []) "Drive Model" :=
  ⟨(c1_amended hostEnv "/dev/sda" [("Drive Model", "X")]).1 rfl,
   (c1_amended hostEnv "/dev/sda" [("Drive Model", "X")]).2.1 rfl,
   (c1_amended nvmeEnv "/dev/nvme0" []).2.2 rfl⟩

/-! ## Claim C2 -/

/-- C2 counterexample: with lscpu output `"Model name: FancyCPU\nCPU MHz:
abc\nL1d cache: 32 KiB"`, the model-name line parses (first conjunct), but
the non-numeric `CPU MHz` line makes `float` raise inside the single `try:`;
the handler then *overwrites* the already-parsed CPU Model with the OS-API
fallback, and the cache line after the failing line is never parsed. -/
theorem c2_counterexample :
    lscpuLines [] ["Model name: FancyCPU"] = .ok [("CPU Model", "FancyCPU")]
    ∧ dictGet (get_system_info cpuEnv) "CPU Model" = some "fallbackproc"
    ∧ dictGet (get_system_info cpuEnv) "L1d Cache" = none :=
  ⟨rfl, rfl, rfl⟩

/-- Stepping the lscpu loop over a raising line raises, keeping the table. -/
theorem lscpuStep_error_of_raises (d : Table) (l : String) (h : lineRaises l = true) :
    lscpuStep d l = .error d := by
  unfold lineRaises at h
  simp only [Bool.and_eq_true, Bool.not_eq_true', Option.isNone_iff_eq_none] at h
  obtain ⟨⟨hnm, hmhz⟩, hfl⟩ := h
  unfold lscpuStep
  rw [hnm, hmhz, hfl]
  simp

/-- The lscpu loop over an appended line list runs left to right and stops at
the first raise. -/
theorem lscpuLines_append (d : Table) (xs ys : List String) :
    lscpuLines d (xs ++ ys)
      = match lscpuLines d xs with
        | .ok t => lscpuLines t ys
        | .error t => .error t := by
  induction xs generalizing d with
  | nil => rfl
  | cons x xs ih =>
    have estep : ∀ l : List String, lscpuLines d (x :: l)
        = match lscpuStep d x with
          | .ok t => lscpuLines t l
          | .error t => .error t := fun l => rfl
    cases he : lscpuStep d x with
    | ok d2 =>
      rw [List.cons_append, estep (xs ++ ys), estep xs]
      simp only [he]
      exact ih d2
    | error d2 =>
      rw [List.cons_append, estep (xs ++ ys), estep xs]
      simp only [he]

/-- C2 (amended): when one line of the structured CPU inspector's output
fails to parse, the whole invocation's parse aborts at that line: the facts
parsed from the lines before it are kept, except that `CPU Model` is
overwritten with the OS-API fallback (`platform.processor() or "Unknown"`),
and no fact is parsed from the lines after it; the final fact table's
`CPU Model` is the fallback value. -/
theorem c2_amended (env : Env) (out : String) (pre post : List String)
    (bad : String) (t : Table)
    (h1 : env.lscpu = some out)
    (h2 : splitLines out = pre ++ bad :: post)
    (h3 : lscpuLines [] pre = .ok t)
    (h4 : lineRaises bad = true) :
    cpuStage env [] = dictSet t "CPU Model" (pyOr env.processor "Unknown")
    ∧ dictGet (get_system_info env) "CPU Model"
        = some (pyOr env.processor "Unknown") := by
  have hrun : lscpuLines [] (splitLines out) = .error t := by
    rw [h2, lscpuLines_append, h3]
    show lscpuLines t (bad :: post) = .error t
    unfold lscpuLines
    rw [lscpuStep_error_of_raises t bad h4]
  have hcpu : cpuStage env [] = dictSet t "CPU Model" (pyOr env.processor "Unknown") := by
    unfold cpuStage
    rw [h1]
    show (match lscpuLines [] (splitLines out) with
      | .ok d2 => d2
      | .error d2 => dictSet d2 "CPU Model" (pyOr env.processor "Unknown")) = _
    rw [hrun]
  refine ⟨hcpu, ?_⟩
  unfold get_system_info
  rw [dockerStage_get_ne _ _ _ (by decide) (by decide) (by decide),
    driveStage_get_ne _ _ _ (by decide) (by decide) (by decide) (by decide)
      (by decide) (by decide) (by decide) (by decide),
    osStage_get_ne _ _ _ (by decide),
    dmiStage_get_ne _ _ _ (by decide) (by decide) (by decide),
    memTotalStage_get_ne _ _ _ (by decide),
    cpuCountStage_get_ne _ _ _ (by decide) (by decide),
    hcpu, dictGet_set_self]

/-- C2 witness: the amended statement instantiated at the concrete lscpu
output of `cpuEnv`. -/
theorem c2_amended_witness :
    cpuStage cpuEnv []
      = dictSet [("CPU Model", "FancyCPU")] "CPU Model" (pyOr cpuEnv.processor "Unknown")
    ∧ dictGet (get_system_info cpuEnv) "CPU Model"
        = some (pyOr cpuEnv.processor "Unknown") :=
  c2_amended cpuEnv "Model name: FancyCPU\nCPU MHz: abc\nL1d cache: 32 KiB"
    ["Model name: FancyCPU"] ["L1d cache: 32 KiB"] "CPU MHz: abc"
    [("CPU Model", "FancyCPU")] rfl rfl rfl rfl

/-! ## Claim C9 -/

/-- C9 counterexample: a run where `df` succeeds but reports an `overlay`
device: no drive probe runs, no drive model/type/capacity fact is determined,
and yet the `Drive: Unknown` sentinel is absent (the sentinel is tied to the
`df` discovery step raising, not to the probes failing). -/
theorem c9_counterexample :
    dictGet (get_system_info overlayEnv) "Filesystem" = some "overlay"
    ∧ dictGet (get_system_info overlayEnv) "Drive" = none
    ∧ dictGet (get_system_info overlayEnv) "Drive Model" = none
    ∧ dictGet (get_system_info overlayEnv) "Drive Type" = none
    ∧ dictGet (get_system_info overlayEnv) "Drive Capacity" = none :=
  ⟨rfl, rfl, rfl, rfl, rfl⟩

/-- C9 (amended): the fact table contains the sentinel `"Drive" = "Unknown"`
exactly when the block-device discovery step (`df` / `df -T` and the parsing
of their output) raises; when discovery succeeds the sentinel is absent even
if every drive probe fails and no drive fact is determined. -/
theorem c9_amended (env : Env) :
    dictGet (get_system_info env) "Drive"
      = if (discoverDevice env).isSome then none else some "Unknown" := by
  unfold get_system_info
  rw [dockerStage_get_ne _ _ _ (by decide) (by decide) (by decide)]
  have hpre : dictGet (osStage env (dmiStage env (memTotalStage env
      (cpuCountStage env (cpuStage env []))))) "Drive" = none := by
    rw [osStage_get_ne _ _ _ (by decide),
      dmiStage_get_ne _ _ _ (by decide) (by decide) (by decide),
      memTotalStage_get_ne _ _ _ (by decide),
      cpuCountStage_get_ne _ _ _ (by decide) (by decide),
      cpuStage_get_ne _ _ _ (by decide) (by decide) (by decide) (by decide)
        (by decide) (by decide)]
    rfl
  unfold driveStage
  cases hd : discoverDevice env with
  | none =>
    simp only [Option.isSome_none, Bool.false_eq_true, if_false]
    exact dictGet_set_self _ _ _
  | some p =>
    obtain ⟨device, fstype⟩ := p
    simp only [Option.isSome_some, if_true]
    rw [driveProbes_get_ne _ _ _ _ (by decide) (by decide) (by decide) (by decide)
        (by decide) (by decide),
      dictGet_set_ne _ _ _ _ (by decide)]
    exact hpre

/-! ## Claim C10 -/

/-- C10 counterexample: the results root exists and contains one qualifying
directory, but its primary measurement file is `{"results":[{"mean":
"abc"}]}`: the string is truthy, so the loop reaches `round("abc", 3)`, which
raises `TypeError` — the run crashes with neither the text report nor the CSV
produced, contradicting "in all other conditions both ... are produced". -/
theorem c10_counterexample :
    mainRun fsCrash hostEnv = .error ()
    ∧ fsCrash.root_exists = true
    ∧ fsCrash.entries.map (fun e => (parse_result_dir e.name).isSome) = [true] :=
  ⟨rfl, rfl, rfl⟩

/-- C10 (amended): a missing results root gives the clean "directory does not
exist" exit and no outputs; an existing root with zero qualifying directories
gives the clean "no results" exit and no outputs; when the record set is
nonempty and every record builds without a type error, both the report and
the CSV rows are produced (system info plus the sorted records); but a truthy
non-numeric measurement value aborts the run with an uncaught `TypeError`. -/
theorem c10_amended (fs : FS) (env : Env) :
    (fs.root_exists = false → mainRun fs env = .ok .errRoot)
    ∧ (∀ e, fs.root_exists = true → collectResults fs.entries = .error e →
        mainRun fs env = .error e)
    ∧ (fs.root_exists = true → collectResults fs.entries = .ok [] →
        mainRun fs env = .ok .errEmpty)
    ∧ (∀ rs, fs.root_exists = true → collectResults fs.entries = .ok rs → rs ≠ [] →
        mainRun fs env = .ok (.report (get_system_info env) (sortRecords rs))) := by
  refine ⟨?_, ?_, ?_, ?_⟩
  · intro h
    unfold mainRun
    rw [h]
    rfl
  · intro e h1 h2
    unfold mainRun
    rw [h1, h2]
    rfl
  · intro h1 h2
    unfold mainRun
    rw [h1, h2]
    rfl
  · intro rs h1 h2 h3
    unfold mainRun
    rw [h1, h2]
    simp [h3]

/-- C10 witness: a well-formed root with one directory produces the report
with the sorted single record. -/
theorem c10_amended_witness :
    mainRun fsGood hostEnv
      = .ok (.report (get_system_info hostEnv) (sortRecords [recGood])) :=
  (c10_amended fsGood hostEnv).2.2.2 [recGood] rfl rfl (List.cons_ne_nil _ _)
